import Mathlib

/-!
Verification of the deterministic simulation-timeline core of the
Game-Code-Execution-Engine repository (live-coding-demo game.c / game.h).

Shallow embedding conventions:
* C `int` fields (frame counters, scores, sizes) are `Int`; the C `%`
  operator on `int` is truncating division remainder, `Int.tmod`.
* The 32-bit PRNG word is a `Nat` kept below `2 ^ 32` by explicit
  `% 2 ^ 32` at each shift-xor fold, exactly mirroring `unsigned int`
  wraparound.
* C `float` fields are carried as `ℚ`.  In everything verified here
  floats are either copied verbatim (snapshots, memcpy) or compared /
  clamped, so exact rational arithmetic coincides with the float
  program on the verified paths.
* Fixed C arrays (`bullets[64]`, `enemies[24]`, `keyboard[350]`,
  `snapshots[capacity]`, loop-recorder `inputs[1800]`) are modelled as
  total functions from the index type; the C loops scan the same
  bounded index ranges via `List.range`.
* The game-play simulation phase of `update_live` (difficulty,
  movement, collisions, ...) only mutates game-state fields and never
  touches the timeline bookkeeping fields; for the reachability
  relation it is abstracted as an arbitrary game-state mutation, while
  every timeline operation (`replay_record_snapshot`,
  `replay_load_frame`, `update_playback`, all `js_*` controls) is
  translated from the source line by line.
-/

namespace GameEngine

/-- `#define WINDOW_WIDTH 640` (game.h). -/
def WINDOW_WIDTH : Int := 640

/-- `#define WINDOW_HEIGHT 480` (game.h). -/
def WINDOW_HEIGHT : Int := 480

/-- `#define MAX_REPLAY_FRAMES 3000` (game.h). -/
def MAX_REPLAY_FRAMES : Int := 3000

/-- `#define LOOP_MAX_INPUTS 1800` (game.h). -/
def LOOP_MAX_INPUTS : Int := 1800

/-- `#define MAX_BULLETS 64` (game.h). -/
def MAX_BULLETS : Nat := 64

/-- `#define MAX_ENEMIES 24` (game.h). -/
def MAX_ENEMIES : Nat := 24

/-- `typedef enum { MODE_LIVE, MODE_PAUSED, MODE_PLAYBACK } TimelineMode;` -/
inductive TimelineMode where
  | live
  | paused
  | playback
deriving DecidableEq

/-- `typedef struct { float x, y; float vx; int w, h; bool alive; } Bullet;` -/
structure Bullet where
  x : ℚ
  y : ℚ
  vx : ℚ
  w : Int
  h : Int
  alive : Bool

/-- `typedef struct { float x, y; float vx; int r; int hp; bool alive; } Enemy;` -/
structure Enemy where
  x : ℚ
  y : ℚ
  vx : ℚ
  r : Int
  hp : Int
  alive : Bool

/-- `GameSnapshot` (game.h): the full per-frame snapshot record.  Note
that it holds `rng_state`, player, stats, timers, difficulty and the
two entity arrays — and nothing else (in particular no shake/flash). -/
structure GameSnapshot where
  rng_state : Nat
  player_x : ℚ
  player_y : ℚ
  player_w : Int
  player_h : Int
  score : Int
  lives : Int
  game_over : Int
  shoot_cooldown : Int
  enemy_spawn_timer : Int
  difficulty : ℚ
  bullets : Nat → Bullet
  enemies : Nat → Enemy

/-- The game-state portion of `GameContext` (game.h): every mutable
world field outside the replay system and the loop recorder. -/
structure GameState where
  keyboard : Int → Int
  rng_state : Nat
  player_x : ℚ
  player_y : ℚ
  player_w : Int
  player_h : Int
  score : Int
  lives : Int
  game_over : Bool
  shoot_cooldown : Int
  enemy_spawn_timer : Int
  difficulty : ℚ
  bullets : Nat → Bullet
  enemies : Nat → Enemy
  shake : ℚ
  flash : ℚ
  console_tick : Int

/-- `ReplaySystem` (game.h).  The snapshot array is a slot-indexed
function; `event_capacity` and the event payload array are omitted
(only `event_count` is read by the verified operations). -/
structure ReplaySystem where
  snapshots : Int → GameSnapshot
  event_count : Int
  snapshot_capacity : Int
  recorded_start_frame : Int
  recorded_end_frame : Int
  current_frame : Int
  display_frame : Int
  mode : TimelineMode
  playback_speed : ℚ
  playback_accumulator : ℚ
  loop_enabled : Bool

/-- `GameContext` (game.h) restricted to the verified core: game state
plus the replay system (renderer handle and loop pointer are host
resources outside the state model). -/
structure GameContext where
  game : GameState
  replay : ReplaySystem

/-- `xorshift32` (game.c): `x ^= x << 13; x ^= x >> 17; x ^= x << 5;`
on a 32-bit unsigned word, modelled with explicit `% 2 ^ 32`. -/
def xorshift32 (x : Nat) : Nat :=
  let x1 := (x ^^^ (x <<< 13)) % 2 ^ 32
  let x2 := x1 ^^^ (x1 >>> 17)
  (x2 ^^^ (x2 <<< 5)) % 2 ^ 32

/-- `frand` (game.c): returns the advanced PRNG word and
`a + (r / 4294967295.0f) * (b - a)` over exact rationals. -/
def frand (s : Nat) (a b : ℚ) : Nat × ℚ :=
  let r := xorshift32 s
  (r, a + ((r : ℚ) / 4294967295) * (b - a))

/-- `irand` (game.c): returns the advanced PRNG word and
`a + (int)(r % (unsigned int)(b_inclusive - a + 1))`.  The cast of the
span through `unsigned int` is modelled by `Int.toNat` (exact for the
nonnegative spans the program uses). -/
def irand (s : Nat) (a b_inclusive : Int) : Nat × Int :=
  let r := xorshift32 s
  (r, a + ((r % (b_inclusive - a + 1).toNat : Nat) : Int))

/-- The snapshot-capture field copy shared by `replay_record_snapshot`
and `loop_capture_snapshot` (game.c): which `ctx` fields are written
into a `GameSnapshot`. -/
def captureSnapshot (g : GameState) : GameSnapshot where
  rng_state := g.rng_state
  player_x := g.player_x
  player_y := g.player_y
  player_w := g.player_w
  player_h := g.player_h
  score := g.score
  lives := g.lives
  game_over := if g.game_over then 1 else 0
  shoot_cooldown := g.shoot_cooldown
  enemy_spawn_timer := g.enemy_spawn_timer
  difficulty := g.difficulty
  bullets := g.bullets
  enemies := g.enemies

/-- The snapshot-apply field copy shared by `replay_load_frame` and
`loop_restore_snapshot` (game.c): overwrites exactly the snapshotted
fields of the live state, leaving keyboard, shake, flash and the
console ticker untouched. -/
def applySnapshot (s : GameSnapshot) (g : GameState) : GameState :=
  { g with
    rng_state := s.rng_state
    player_x := s.player_x
    player_y := s.player_y
    player_w := s.player_w
    player_h := s.player_h
    score := s.score
    lives := s.lives
    game_over := s.game_over ≠ 0
    shoot_cooldown := s.shoot_cooldown
    enemy_spawn_timer := s.enemy_spawn_timer
    difficulty := s.difficulty
    bullets := s.bullets
    enemies := s.enemies }

/-- `replay_record_snapshot` (game.c): write the current state into
slot `current_frame % snapshot_capacity`, set
`recorded_end_frame = current_frame`, and slide
`recorded_start_frame` forward once the ring is full. -/
def replay_record_snapshot (c : GameContext) : GameContext :=
  let frame_index := c.replay.current_frame.tmod c.replay.snapshot_capacity
  let snaps := fun i => if i = frame_index then captureSnapshot c.game else c.replay.snapshots i
  let start :=
    if c.replay.snapshot_capacity ≤ c.replay.current_frame - c.replay.recorded_start_frame then
      c.replay.current_frame - c.replay.snapshot_capacity + 1
    else c.replay.recorded_start_frame
  { c with replay := { c.replay with
      snapshots := snaps
      recorded_end_frame := c.replay.current_frame
      recorded_start_frame := start } }

/-- The two sequential clamping `if`s at the top of
`replay_load_frame` / `js_seek_to_frame` (game.c). -/
def frameClamp (lo hi f : Int) : Int :=
  let f1 := if f < lo then lo else f
  if hi < f1 then hi else f1

/-- `replay_load_frame` (game.c): clamp the requested frame into
`[recorded_start_frame, recorded_end_frame]`, copy the snapshot stored
at slot `frame % snapshot_capacity` back into the live state, and set
`display_frame` to the clamped frame. -/
def replay_load_frame (c : GameContext) (frame : Int) : GameContext :=
  let f := frameClamp c.replay.recorded_start_frame c.replay.recorded_end_frame frame
  let frame_index := f.tmod c.replay.snapshot_capacity
  { c with
    game := applySnapshot (c.replay.snapshots frame_index) c.game
    replay := { c.replay with display_frame := f } }

/-- The timeline tail of `update_live` (game.c): snapshot after the
simulation phase, then advance `current_frame` and mirror it into
`display_frame`. -/
def liveAdvance (c : GameContext) : GameContext :=
  let c1 := replay_record_snapshot c
  { c1 with replay := { c1.replay with
      current_frame := c1.replay.current_frame + 1
      display_frame := c1.replay.current_frame + 1 } }

/-- One execution of the body of the `while` loop in `update_playback`
(game.c), entered with `playback_accumulator >= 1`: subtract one from
the accumulator, compute the next display frame, wrap to
`recorded_start_frame` when past the end with `loop_enabled`, and
otherwise transition to Paused zeroing the accumulator (the C `return`
is simulated by the zeroed accumulator falsifying the loop guard). -/
def playbackStep (c : GameContext) : GameContext :=
  let c1 : GameContext :=
    { c with replay := { c.replay with
        playback_accumulator := c.replay.playback_accumulator - 1 } }
  let next := c1.replay.display_frame + 1
  if c1.replay.recorded_end_frame < next then
    if c1.replay.loop_enabled then
      replay_load_frame c1 c1.replay.recorded_start_frame
    else
      { c1 with replay := { c1.replay with
          mode := TimelineMode.paused
          playback_accumulator := 0 } }
  else
    replay_load_frame c1 next

/-- The `while (accumulator >= 1)` loop of `update_playback` (game.c),
via fuel.  The guard is re-checked each iteration, so any fuel of at
least `⌈accumulator⌉` iterations computes the loop exactly; the early
`return` in the Paused branch zeroes the accumulator, which stops the
loop at the next guard check. -/
def playbackLoop : Nat → GameContext → GameContext
  | 0, c => c
  | n + 1, c =>
    if (1 : ℚ) ≤ c.replay.playback_accumulator then playbackLoop n (playbackStep c) else c

/-- `update_playback` (game.c): add `playback_speed` into the
accumulator, then run the advance loop.  `⌈accumulator⌉` fuel is an
upper bound on the iteration count since each iteration subtracts 1. -/
def update_playback (c : GameContext) : GameContext :=
  let c0 : GameContext :=
    { c with replay := { c.replay with
        playback_accumulator := c.replay.playback_accumulator + c.replay.playback_speed } }
  playbackLoop (Int.toNat ⌈c0.replay.playback_accumulator⌉) c0

/-- `memset(ctx->keyboard, 0, ...)` (game.c), plus general keyboard
overwrite used by the loop recorder. -/
def setKeyboard (c : GameContext) (kb : Int → Int) : GameContext :=
  { c with game := { c.game with keyboard := kb } }

/-- `js_pause` (game.c): Live or Playback goes to Paused, Paused is
left unchanged; no other field is touched. -/
def js_pause (c : GameContext) : GameContext :=
  match c.replay.mode with
  | TimelineMode.live => { c with replay := { c.replay with mode := TimelineMode.paused } }
  | TimelineMode.playback => { c with replay := { c.replay with mode := TimelineMode.paused } }
  | TimelineMode.paused => c

/-- `js_go_live` (game.c): mode to Live, `current_frame` snaps to
`display_frame`, keyboard level state cleared. -/
def js_go_live (c : GameContext) : GameContext :=
  setKeyboard
    { c with replay := { c.replay with
        mode := TimelineMode.live
        current_frame := c.replay.display_frame } }
    (fun _ => 0)

/-- `js_play` (game.c): from Paused, resume Playback with a zeroed
accumulator unless the display frame is at or past the recorded end
(then go live); from Playback, go live; from Live, no effect. -/
def js_play (c : GameContext) : GameContext :=
  match c.replay.mode with
  | TimelineMode.paused =>
    if c.replay.recorded_end_frame ≤ c.replay.display_frame then js_go_live c
    else
      { c with replay := { c.replay with
          mode := TimelineMode.playback
          playback_accumulator := 0 } }
  | TimelineMode.playback => js_go_live c
  | TimelineMode.live => c

/-- `js_seek_to_frame` (game.c): force Paused, clamp the frame into
the recorded range, load that snapshot, clear keyboard level state. -/
def js_seek_to_frame (c : GameContext) (frame : Int) : GameContext :=
  let c1 : GameContext := { c with replay := { c.replay with mode := TimelineMode.paused } }
  let f := frameClamp c1.replay.recorded_start_frame c1.replay.recorded_end_frame frame
  setKeyboard (replay_load_frame c1 f) (fun _ => 0)

/-- `js_next_frame` (game.c): step to `display_frame + 1`, wrapping to
the recorded start (loop on) or clamping to the end (loop off), then
seek. -/
def js_next_frame (c : GameContext) : GameContext :=
  let next := c.replay.display_frame + 1
  let next :=
    if c.replay.recorded_end_frame < next then
      if c.replay.loop_enabled then c.replay.recorded_start_frame else c.replay.recorded_end_frame
    else next
  js_seek_to_frame c next

/-- `js_prev_frame` (game.c): step to `display_frame - 1`, wrapping to
the recorded end (loop on) or clamping to the start (loop off), then
seek. -/
def js_prev_frame (c : GameContext) : GameContext :=
  let prev := c.replay.display_frame - 1
  let prev :=
    if prev < c.replay.recorded_start_frame then
      if c.replay.loop_enabled then c.replay.recorded_end_frame else c.replay.recorded_start_frame
    else prev
  js_seek_to_frame c prev

/-- `js_set_loop` (game.c). -/
def js_set_loop (c : GameContext) (enabled : Bool) : GameContext :=
  { c with replay := { c.replay with loop_enabled := enabled } }

/-- `js_set_sim_speed` (game.c): assign, then clamp into `[0, 4]` by
two sequential `if`s. -/
def js_set_sim_speed (c : GameContext) (speed : ℚ) : GameContext :=
  let s1 := if speed < 0 then (0 : ℚ) else speed
  let s2 := if (4 : ℚ) < s1 then (4 : ℚ) else s1
  { c with replay := { c.replay with playback_speed := s2 } }

/-- `js_start_recording` (game.c): zero the input-event log, collapse
the recorded range and the display/current frames to `current_frame`,
force Live mode, clear the keyboard level state. -/
def js_start_recording (c : GameContext) : GameContext :=
  setKeyboard
    { c with replay := { c.replay with
        event_count := 0
        recorded_start_frame := c.replay.current_frame
        recorded_end_frame := c.replay.current_frame
        display_frame := c.replay.current_frame
        mode := TimelineMode.live } }
    (fun _ => 0)

/-- `js_stop_recording` (game.c): Live goes to Paused; otherwise no
effect. -/
def js_stop_recording (c : GameContext) : GameContext :=
  if c.replay.mode = TimelineMode.live then
    { c with replay := { c.replay with mode := TimelineMode.paused } }
  else c

/-- `js_start_playback` (game.c): rejected when nothing is recorded
(`recorded_end_frame <= recorded_start_frame`); otherwise Playback
mode with a zeroed accumulator and cleared keyboard. -/
def js_start_playback (c : GameContext) : GameContext :=
  if c.replay.recorded_end_frame ≤ c.replay.recorded_start_frame then c
  else
    setKeyboard
      { c with replay := { c.replay with
          mode := TimelineMode.playback
          playback_accumulator := 0 } }
      (fun _ => 0)

/-- `js_stop_playback` (game.c): Playback goes to Paused; otherwise no
effect. -/
def js_stop_playback (c : GameContext) : GameContext :=
  if c.replay.mode = TimelineMode.playback then
    { c with replay := { c.replay with mode := TimelineMode.paused } }
  else c

/-- `js_trim_end` (game.c): rejected unless
`recorded_start_frame < frame < recorded_end_frame`; on success the
recorded end becomes `frame`, and the display frame (via a snapshot
load) and the current frame are clamped down to `frame` when they lie
past it. -/
def js_trim_end (c : GameContext) (frame : Int) : GameContext :=
  if frame ≤ c.replay.recorded_start_frame then c
  else if c.replay.recorded_end_frame ≤ frame then c
  else
    let c1 : GameContext := { c with replay := { c.replay with recorded_end_frame := frame } }
    let c2 := if frame < c1.replay.display_frame then replay_load_frame c1 frame else c1
    if frame < c2.replay.current_frame then
      { c2 with replay := { c2.replay with current_frame := frame } }
    else c2

/-- `spawn_enemy` (game.c): scan `enemies[0..23]` for the first dead
slot; when none is free the function returns with no mutation at all;
otherwise initialize the slot from the PRNG (threaded explicitly). -/
def spawn_enemy (c : GameContext) : GameContext :=
  match (List.range MAX_ENEMIES).find? (fun i => !(c.game.enemies i).alive) with
  | none => c
  | some i =>
    let (s1, r) := irand c.game.rng_state 10 18
    let (s2, fx) := frand s1 0 60
    let (s3, fy) := frand s2 40 ((WINDOW_HEIGHT : ℚ) - 40)
    let base := (2.2 : ℚ) + c.game.difficulty * (0.6 : ℚ)
    let (s4, fv) := frand s3 base (base + (1.5 : ℚ))
    let e : Enemy :=
      { alive := true
        r := r
        x := (WINDOW_WIDTH : ℚ) + (r : ℚ) + fx
        y := fy
        vx := -fv
        hp := if (6 : ℚ) < c.game.difficulty then 2 else 1 }
    { c with game := { c.game with
        rng_state := s4
        enemies := fun j => if j = i then e else c.game.enemies j } }

/-- `fire_bullet` (game.c): scan `bullets[0..63]` for the first dead
slot; when none is free the function returns with no mutation at all;
otherwise initialize the slot from the player position and the
difficulty-scaled bullet speed. -/
def fire_bullet (c : GameContext) : GameContext :=
  match (List.range MAX_BULLETS).find? (fun i => !(c.game.bullets i).alive) with
  | none => c
  | some i =>
    let b : Bullet :=
      { alive := true
        w := 10
        h := 5
        x := c.game.player_x + (c.game.player_w : ℚ)
        y := c.game.player_y + (c.game.player_h : ℚ) * (0.5 : ℚ) - (5 : ℚ) * (0.5 : ℚ)
        vx := (8 : ℚ) + c.game.difficulty * (0.3 : ℚ) }
    { c with game := { c.game with
        bullets := fun j => if j = i then b else c.game.bullets j } }

/-- `typedef enum { LOOP_IDLE, LOOP_RECORDING, LOOP_PLAYBACK } LoopRecorderState;` -/
inductive LoopRecorderState where
  | idle
  | recording
  | playback
deriving DecidableEq

/-- `LoopRecorder` (game.h): input-frame ring, total recorded count,
read cursor, one baseline snapshot and the keyboard backup taken with
it. -/
structure LoopRecorder where
  state : LoopRecorderState
  start_snapshot : GameSnapshot
  inputs : Int → (Int → Int)
  input_count : Int
  playback_index : Int
  keyboard_backup : Int → Int

/-- `loop_capture_snapshot` (game.c): store the current game state as
the baseline snapshot and back up the keyboard level state. -/
def loop_capture_snapshot (c : GameContext) (l : LoopRecorder) : LoopRecorder :=
  { l with
    start_snapshot := captureSnapshot c.game
    keyboard_backup := c.game.keyboard }

/-- `loop_restore_snapshot` (game.c): apply the baseline snapshot to
the live state and restore the backed-up keyboard level state. -/
def loop_restore_snapshot (c : GameContext) (l : LoopRecorder) : GameContext :=
  setKeyboard { c with game := applySnapshot l.start_snapshot c.game } l.keyboard_backup

/-- `loop_record_frame` (game.c): append the current keyboard vector
at `input_count % LOOP_MAX_INPUTS`; on wrapping into a second lap the
baseline is recaptured from the current live state. -/
def loop_record_frame (c : GameContext) (l : LoopRecorder) : LoopRecorder :=
  let write_index := l.input_count.tmod LOOP_MAX_INPUTS
  let l1 : LoopRecorder :=
    { l with
      inputs := fun j => if j = write_index then c.game.keyboard else l.inputs j
      input_count := l.input_count + 1 }
  if LOOP_MAX_INPUTS < l1.input_count ∧ write_index = 0 then loop_capture_snapshot c l1 else l1

/-- `loop_apply_frame` (game.c): with a nonempty recording, overwrite
the live keyboard with the stored frame at the read cursor and advance
it; on reaching the effective length (`min(input_count,
LOOP_MAX_INPUTS)`), reset the cursor to 0 and reapply the baseline. -/
def loop_apply_frame (c : GameContext) (l : LoopRecorder) : GameContext × LoopRecorder :=
  if l.input_count = 0 then (c, l)
  else
    let effective_count := if LOOP_MAX_INPUTS < l.input_count then LOOP_MAX_INPUTS else l.input_count
    let c1 := setKeyboard c (l.inputs l.playback_index)
    let l1 : LoopRecorder := { l with playback_index := l.playback_index + 1 }
    if effective_count ≤ l1.playback_index then
      let l2 : LoopRecorder := { l1 with playback_index := 0 }
      (loop_restore_snapshot c1 l2, l2)
    else (c1, l1)

/-- `loop_toggle` (game.c): Idle starts a recording from a fresh
baseline; Recording with captured frames restores the baseline and
enters Playback from cursor 0 (with nothing recorded it falls back to
Idle); Playback exits to Idle clearing the keyboard. -/
def loop_toggle (c : GameContext) (l : LoopRecorder) : GameContext × LoopRecorder :=
  match l.state with
  | LoopRecorderState.idle =>
    let l1 : LoopRecorder := { l with input_count := 0, playback_index := 0 }
    (c, { loop_capture_snapshot c l1 with state := LoopRecorderState.recording })
  | LoopRecorderState.recording =>
    if 0 < l.input_count then
      (loop_restore_snapshot c l,
       { l with playback_index := 0, state := LoopRecorderState.playback })
    else (c, { l with state := LoopRecorderState.idle })
  | LoopRecorderState.playback =>
    (setKeyboard c (fun _ => 0), { l with state := LoopRecorderState.idle })

/-- The replay-system initialization performed by
`replay_init_if_needed` and the first-frame `js_start_recording`
(game.c): zeroed counters, Live mode, speed 1, loop on.  The freshly
`malloc`ed snapshot storage holds arbitrary contents `s0`. -/
def initReplay (cap : Int) (s0 : Int → GameSnapshot) : ReplaySystem where
  snapshots := s0
  event_count := 0
  snapshot_capacity := cap
  recorded_start_frame := 0
  recorded_end_frame := 0
  current_frame := 0
  display_frame := 0
  mode := TimelineMode.live
  playback_speed := 1
  playback_accumulator := 0
  loop_enabled := true

/-- One step of the timeline controller, as driven by
`update_and_render`, `handle_events` and the exported `js_*` control
surface (game.c).  The gameplay simulation phase of `update_live` and
the event handlers mutate only game-state fields (plus the
input-event counter), so they are abstracted as an arbitrary
game-state replacement; every timeline operation is the function
translated from the source. -/
inductive Step : GameContext → GameContext → Prop where
  | tick_live (c : GameContext) (g : GameState) :
      c.replay.mode = TimelineMode.live →
      Step c (liveAdvance { game := g, replay := c.replay })
  | tick_playback (c : GameContext) :
      c.replay.mode = TimelineMode.playback →
      Step c (update_playback c)
  | env (c : GameContext) (g : GameState) (n : Int) :
      Step c { game := g, replay := { c.replay with event_count := n } }
  | pause (c : GameContext) : Step c (js_pause c)
  | play (c : GameContext) : Step c (js_play c)
  | go_live (c : GameContext) : Step c (js_go_live c)
  | seek (c : GameContext) (f : Int) : Step c (js_seek_to_frame c f)
  | next_frame (c : GameContext) : Step c (js_next_frame c)
  | prev_frame (c : GameContext) : Step c (js_prev_frame c)
  | set_loop (c : GameContext) (b : Bool) : Step c (js_set_loop c b)
  | set_speed (c : GameContext) (s : ℚ) : Step c (js_set_sim_speed c s)
  | start_recording (c : GameContext) : Step c (js_start_recording c)
  | stop_recording (c : GameContext) : Step c (js_stop_recording c)
  | start_playback (c : GameContext) : Step c (js_start_playback c)
  | stop_playback (c : GameContext) : Step c (js_stop_playback c)
  | trim (c : GameContext) (f : Int) : Step c (js_trim_end c f)

/-- States reachable from the initial context (first
`update_and_render` call: fresh replay system of capacity
`MAX_REPLAY_FRAMES`, any initial game state and snapshot-buffer
contents) by timeline steps. -/
inductive Reachable : GameContext → Prop where
  | init (g : GameState) (s0 : Int → GameSnapshot) :
      Reachable { game := g, replay := initReplay MAX_REPLAY_FRAMES s0 }
  | step {c c' : GameContext} : Reachable c → Step c c' → Reachable c'

/-- The timeline bookkeeping invariant maintained by every reachable
state.  `live_display` records that Live mode keeps `display_frame`
mirroring `current_frame`; the frame bounds allow `display_frame` to
sit one frame past `recorded_end_frame` (the live edge). -/
structure Inv (c : GameContext) : Prop where
  cap_pos : 1 ≤ c.replay.snapshot_capacity
  start_le_end : c.replay.recorded_start_frame ≤ c.replay.recorded_end_frame
  start_le_current : c.replay.recorded_start_frame ≤ c.replay.current_frame
  start_le_display : c.replay.recorded_start_frame ≤ c.replay.display_frame
  display_le : c.replay.display_frame ≤ c.replay.recorded_end_frame + 1
  current_le : c.replay.current_frame ≤ c.replay.recorded_end_frame + 1
  live_display : c.replay.mode = TimelineMode.live →
    c.replay.display_frame = c.replay.current_frame

theorem frameClamp_bounds {lo hi : Int} (f : Int) (h : lo ≤ hi) :
    lo ≤ frameClamp lo hi f ∧ frameClamp lo hi f ≤ hi := by
  unfold frameClamp
  dsimp only
  split_ifs <;> omega

theorem frameClamp_of_mem {lo hi f : Int} (h1 : lo ≤ f) (h2 : f ≤ hi) :
    frameClamp lo hi f = f := by
  unfold frameClamp
  dsimp only
  split_ifs <;> omega

theorem replay_load_frame_replay (c : GameContext) (f : Int) :
    (replay_load_frame c f).replay =
      { c.replay with
        display_frame :=
          frameClamp c.replay.recorded_start_frame c.replay.recorded_end_frame f } := rfl

theorem replay_load_frame_game (c : GameContext) (f : Int) :
    (replay_load_frame c f).game =
      applySnapshot
        (c.replay.snapshots
          ((frameClamp c.replay.recorded_start_frame c.replay.recorded_end_frame f).tmod
            c.replay.snapshot_capacity))
        c.game := rfl

theorem inv_replay_load_frame {c : GameContext} (h : Inv c) (f : Int)
    (hm : c.replay.mode ≠ TimelineMode.live) : Inv (replay_load_frame c f) := by
  obtain ⟨hb1, hb2⟩ := frameClamp_bounds f h.start_le_end
  exact {
    cap_pos := h.cap_pos
    start_le_end := h.start_le_end
    start_le_current := h.start_le_current
    start_le_display := hb1
    display_le := by dsimp [replay_load_frame]; omega
    current_le := h.current_le
    live_display := fun hl => absurd hl hm }

theorem inv_playbackStep {c : GameContext} (h : Inv c)
    (hm : c.replay.mode ≠ TimelineMode.live) :
    Inv (playbackStep c) ∧ (playbackStep c).replay.mode ≠ TimelineMode.live := by
  unfold playbackStep
  dsimp only
  split_ifs with h1 h2
  · refine ⟨inv_replay_load_frame ?_ _ hm, hm⟩
    exact { h with live_display := fun hl => absurd hl hm }
  · refine ⟨?_, by simp⟩
    exact { h with live_display := by intro hl; cases hl }
  · refine ⟨inv_replay_load_frame ?_ _ hm, hm⟩
    exact { h with live_display := fun hl => absurd hl hm }

theorem inv_playbackLoop {c : GameContext} (n : Nat) (h : Inv c)
    (hm : c.replay.mode ≠ TimelineMode.live) :
    Inv (playbackLoop n c) ∧ (playbackLoop n c).replay.mode ≠ TimelineMode.live := by
  induction n generalizing c with
  | zero => exact ⟨h, hm⟩
  | succ n ih =>
    unfold playbackLoop
    split_ifs with hacc
    · obtain ⟨h', hm'⟩ := inv_playbackStep h hm
      exact ih h' hm'
    · exact ⟨h, hm⟩

theorem inv_update_playback {c : GameContext} (h : Inv c)
    (hm : c.replay.mode = TimelineMode.playback) : Inv (update_playback c) := by
  unfold update_playback
  dsimp only
  have hmode : c.replay.mode = TimelineMode.live → False := by
    intro hl; rw [hm] at hl; cases hl
  have h0 : Inv ({ c with replay := { c.replay with
      playback_accumulator := c.replay.playback_accumulator + c.replay.playback_speed } } :
        GameContext) :=
    ⟨h.cap_pos, h.start_le_end, h.start_le_current, h.start_le_display, h.display_le,
      h.current_le, fun hl => (hmode hl).elim⟩
  exact (inv_playbackLoop _ h0 (fun hl => hmode hl)).1

theorem inv_liveAdvance {c : GameContext} (g : GameState) (h : Inv c)
    (_hm : c.replay.mode = TimelineMode.live) :
    Inv (liveAdvance { game := g, replay := c.replay }) := by
  have hcap := h.cap_pos
  have h2 := h.start_le_current
  unfold liveAdvance replay_record_snapshot
  dsimp only
  constructor <;> dsimp only <;>
    first
    | (split_ifs <;> omega)
    | omega

theorem inv_setKeyboard {c : GameContext} (kb : Int → Int) (h : Inv c) :
    Inv (setKeyboard c kb) :=
  ⟨h.cap_pos, h.start_le_end, h.start_le_current, h.start_le_display, h.display_le,
    h.current_le, h.live_display⟩

theorem inv_js_seek_to_frame {c : GameContext} (h : Inv c) (f : Int) :
    Inv (js_seek_to_frame c f) := by
  unfold js_seek_to_frame
  dsimp only
  have hp : Inv ({ c with replay := { c.replay with mode := TimelineMode.paused } } : GameContext) :=
    { h with live_display := by intro hl; cases hl }
  exact inv_setKeyboard _ (inv_replay_load_frame hp _ (by intro hl; cases hl))

theorem inv_js_go_live {c : GameContext} (h : Inv c) : Inv (js_go_live c) :=
  { cap_pos := h.cap_pos
    start_le_end := h.start_le_end
    start_le_current := h.start_le_display
    start_le_display := h.start_le_display
    display_le := h.display_le
    current_le := h.display_le
    live_display := fun _ => rfl }

theorem inv_step {c c' : GameContext} (h : Inv c) (hs : Step c c') : Inv c' := by
  cases hs with
  | tick_live g hm => exact inv_liveAdvance g h hm
  | tick_playback hm => exact inv_update_playback h hm
  | env g n => exact { h with live_display := h.live_display }
  | pause =>
    unfold js_pause
    split
    · exact { h with live_display := by intro hl; cases hl }
    · exact { h with live_display := by intro hl; cases hl }
    · exact h
  | play =>
    unfold js_play
    split
    · split_ifs with hge
      · exact inv_js_go_live h
      · exact { h with live_display := by intro hl; cases hl }
    · exact inv_js_go_live h
    · exact h
  | go_live => exact inv_js_go_live h
  | seek f => exact inv_js_seek_to_frame h f
  | next_frame => exact inv_js_seek_to_frame h _
  | prev_frame => exact inv_js_seek_to_frame h _
  | set_loop b => exact { h with live_display := h.live_display }
  | set_speed s => exact { h with live_display := h.live_display }
  | start_recording =>
    exact {
      cap_pos := h.cap_pos
      start_le_end := le_refl _
      start_le_current := le_refl _
      start_le_display := le_refl _
      display_le := by dsimp [js_start_recording, setKeyboard]; omega
      current_le := by dsimp [js_start_recording, setKeyboard]; omega
      live_display := fun _ => rfl }
  | stop_recording =>
    unfold js_stop_recording
    split_ifs with hmode
    · exact { h with live_display := by intro hl; cases hl }
    · exact h
  | start_playback =>
    unfold js_start_playback
    split_ifs with hmode
    · exact h
    · exact inv_setKeyboard _ { h with live_display := by intro hl; cases hl }
  | stop_playback =>
    unfold js_stop_playback
    split_ifs with hmode
    · exact { h with live_display := by intro hl; cases hl }
    · exact h
  | trim f =>
    unfold js_trim_end
    split_ifs with h1 h2
    · exact h
    · exact h
    · have hse := h.start_le_end
      have hsc := h.start_le_current
      have hsd := h.start_le_display
      have hld := h.live_display
      dsimp only
      have hclamp : frameClamp c.replay.recorded_start_frame f f = f :=
        frameClamp_of_mem (by omega) (le_refl f)
      split_ifs with hd hcf hcf <;>
        refine ⟨h.cap_pos, ?_, ?_, ?_, ?_, ?_, ?_⟩ <;>
          (try simp only [replay_load_frame_replay] at *) <;>
          (try rw [hclamp]) <;>
          first
          | omega
          | (intro hl; have hdc := hld hl; omega)

theorem inv_reachable {c : GameContext} (h : Reachable c) : Inv c := by
  induction h with
  | init g s0 =>
    constructor <;> (try intro _) <;>
      dsimp only [initReplay, MAX_REPLAY_FRAMES] <;> omega
  | step _ hs ih => exact inv_step ih hs

/-- An all-zero dead bullet slot (`memset` clear in `clear_world`). -/
def bulletZero : Bullet where
  x := 0
  y := 0
  vx := 0
  w := 0
  h := 0
  alive := false

/-- An all-zero dead enemy slot (`memset` clear in `clear_world`). -/
def enemyZero : Enemy where
  x := 0
  y := 0
  vx := 0
  r := 0
  hp := 0
  alive := false

/-- An all-zero snapshot, standing in for zero-initialized storage. -/
def snapZero : GameSnapshot where
  rng_state := 0
  player_x := 0
  player_y := 0
  player_w := 0
  player_h := 0
  score := 0
  lives := 0
  game_over := 0
  shoot_cooldown := 0
  enemy_spawn_timer := 0
  difficulty := 0
  bullets := fun _ => bulletZero
  enemies := fun _ => enemyZero

/-- An all-zero game state used as a concrete base point for the
scenario computations. -/
def gameZero : GameState where
  keyboard := fun _ => 0
  rng_state := 1337
  player_x := 0
  player_y := 0
  player_w := 0
  player_h := 0
  score := 0
  lives := 0
  game_over := false
  shoot_cooldown := 0
  enemy_spawn_timer := 0
  difficulty := 0
  bullets := fun _ => bulletZero
  enemies := fun _ => enemyZero
  shake := 0
  flash := 0
  console_tick := 0

/-- A freshly initialized context with snapshot-ring capacity `cap`. -/
def mkInit (cap : Int) : GameContext where
  game := gameZero
  replay := initReplay cap (fun _ => snapZero)

/-- Recording `n` consecutive live frames into an initially empty ring
of capacity `cap`: `n` iterations of the record-then-advance tail of
`update_live` starting from the fresh context (frames `0 .. n-1` get
recorded). -/
def recordFrames (cap : Int) (n : Nat) : GameContext :=
  liveAdvance^[n] (mkInit cap)

theorem liveAdvance_replay (c : GameContext) :
    (liveAdvance c).replay.current_frame = c.replay.current_frame + 1 ∧
    (liveAdvance c).replay.display_frame = c.replay.current_frame + 1 ∧
    (liveAdvance c).replay.recorded_end_frame = c.replay.current_frame ∧
    (liveAdvance c).replay.recorded_start_frame =
      (if c.replay.snapshot_capacity ≤ c.replay.current_frame - c.replay.recorded_start_frame
       then c.replay.current_frame - c.replay.snapshot_capacity + 1
       else c.replay.recorded_start_frame) ∧
    (liveAdvance c).replay.snapshot_capacity = c.replay.snapshot_capacity ∧
    (liveAdvance c).replay.mode = c.replay.mode :=
  ⟨rfl, rfl, rfl, rfl, rfl, rfl⟩

theorem recordFrames_fields (cap : Int) (hcap : 1 ≤ cap) (n : Nat) :
    (recordFrames cap n).replay.current_frame = (n : Int) ∧
    (recordFrames cap n).replay.display_frame = (n : Int) ∧
    (recordFrames cap n).replay.recorded_start_frame = max 0 ((n : Int) - cap) ∧
    (recordFrames cap n).replay.recorded_end_frame = (if n = 0 then 0 else (n : Int) - 1) ∧
    (recordFrames cap n).replay.snapshot_capacity = cap ∧
    (recordFrames cap n).replay.mode = TimelineMode.live := by
  induction n with
  | zero =>
    refine ⟨rfl, rfl, ?_, ?_, rfl, rfl⟩ <;>
      (simp [recordFrames, mkInit, initReplay]; try omega)
  | succ n ih =>
    obtain ⟨ih1, ih2, ih3, ih4, ih5, ih6⟩ := ih
    unfold recordFrames at *
    rw [Function.iterate_succ_apply']
    obtain ⟨la1, la2, la3, la4, la5, la6⟩ := liveAdvance_replay (liveAdvance^[n] (mkInit cap))
    refine ⟨?_, ?_, ?_, ?_, ?_, ?_⟩
    · rw [la1, ih1]; omega
    · rw [la2, ih1]; omega
    · simp only [la4, ih5, ih1, ih3]; split_ifs <;> omega
    · rw [la3, ih1, if_neg (by omega : ¬(n + 1 = 0))]; omega
    · rw [la5, ih5]
    · rw [la6, ih6]

theorem applySnapshot_captureSnapshot (g : GameState) :
    applySnapshot (captureSnapshot g) g = g := by
  cases g with
  | mk kb rng px py pw ph sc lv go cd est df bs es shk fl ct => cases go <;> rfl

/-- C1: `replay_record_snapshot` writes the captured state into slot
`current_frame mod capacity`, sets `recorded_end_frame` to the
recorded frame, advances `recorded_start_frame` to
`frame - capacity + 1` exactly when `frame - recorded_start_frame`
reaches the capacity (leaving it unchanged otherwise); consequently,
after recording frames `0 .. N` in order into an initially empty ring
of capacity `C ≤ N`, `recorded_start_frame = N - C + 1`. -/
theorem c1_ring_record_eviction :
    (∀ c : GameContext,
      (replay_record_snapshot c).replay.snapshots
          (c.replay.current_frame.tmod c.replay.snapshot_capacity) = captureSnapshot c.game ∧
      (replay_record_snapshot c).replay.recorded_end_frame = c.replay.current_frame ∧
      (c.replay.snapshot_capacity ≤ c.replay.current_frame - c.replay.recorded_start_frame →
        (replay_record_snapshot c).replay.recorded_start_frame =
          c.replay.current_frame - c.replay.snapshot_capacity + 1) ∧
      (c.replay.current_frame - c.replay.recorded_start_frame < c.replay.snapshot_capacity →
        (replay_record_snapshot c).replay.recorded_start_frame =
          c.replay.recorded_start_frame)) ∧
    (∀ (capacity N : Nat), 1 ≤ capacity → capacity ≤ N →
      (recordFrames (capacity : Int) (N + 1)).replay.recorded_start_frame =
        (N : Int) - (capacity : Int) + 1) := by
  constructor
  · intro c
    refine ⟨by simp [replay_record_snapshot], rfl, fun h => if_pos h, fun h => if_neg (by omega)⟩
  · intro capacity N h1 h2
    have hfields := recordFrames_fields (capacity : Int) (by exact_mod_cast h1) (N + 1)
    rw [hfields.2.2.1]
    omega

/-- Closed witness for C1: with capacity 3, after recording frames
`0 .. 5` the retained window starts at frame `3 = 5 - 3 + 1`. -/
theorem c1_ring_record_eviction_witness :
    (recordFrames ((3 : Nat) : Int) (5 + 1)).replay.recorded_start_frame =
      ((5 : Nat) : Int) - ((3 : Nat) : Int) + 1 :=
  c1_ring_record_eviction.2 3 5 (by omega) (by omega)

/-- C2: `replay_load_frame` is a total function that first clamps the
requested frame into `[recorded_start_frame, recorded_end_frame]` and
applies the snapshot stored at slot `frame mod capacity`; immediately
after `replay_record_snapshot`, loading the recorded frame restores
the game state bit-for-bit; a later record into a different slot
leaves the stored snapshot untouched; and in the capacity-3 scenario
recording frames 0,1,2,3 gives window `[1, 3]` where `load 0` clamps
to frame 1 and yields exactly the same state as `load 1`. -/
theorem c2_load_clamp_fidelity :
    (∀ (c : GameContext) (f : Int),
      (replay_load_frame c f).replay.display_frame =
        frameClamp c.replay.recorded_start_frame c.replay.recorded_end_frame f ∧
      (replay_load_frame c f).game =
        applySnapshot
          (c.replay.snapshots
            ((frameClamp c.replay.recorded_start_frame c.replay.recorded_end_frame f).tmod
              c.replay.snapshot_capacity))
          c.game) ∧
    (∀ c : GameContext,
      1 ≤ c.replay.snapshot_capacity →
      c.replay.recorded_start_frame ≤ c.replay.current_frame →
      (replay_load_frame (replay_record_snapshot c) c.replay.current_frame).game = c.game ∧
      (replay_load_frame (replay_record_snapshot c)
          c.replay.current_frame).replay.display_frame = c.replay.current_frame) ∧
    (∀ (c : GameContext) (f : Int),
      f.tmod c.replay.snapshot_capacity ≠ c.replay.current_frame.tmod c.replay.snapshot_capacity →
      (replay_record_snapshot c).replay.snapshots (f.tmod c.replay.snapshot_capacity) =
        c.replay.snapshots (f.tmod c.replay.snapshot_capacity)) ∧
    (replay_load_frame (recordFrames 3 4) 0 = replay_load_frame (recordFrames 3 4) 1 ∧
      (recordFrames 3 4).replay.recorded_start_frame = 1 ∧
      (recordFrames 3 4).replay.recorded_end_frame = 3 ∧
      (replay_load_frame (recordFrames 3 4) 0).replay.display_frame = 1) := by
  refine ⟨fun c f => ⟨rfl, rfl⟩, ?_, ?_, rfl, rfl, rfl, rfl⟩
  · intro c h1 h2
    have hstart : (replay_record_snapshot c).replay.recorded_start_frame ≤
        c.replay.current_frame := by
      unfold replay_record_snapshot
      dsimp only
      split_ifs <;> omega
    have hclamp : frameClamp (replay_record_snapshot c).replay.recorded_start_frame
        (replay_record_snapshot c).replay.recorded_end_frame c.replay.current_frame =
        c.replay.current_frame :=
      frameClamp_of_mem hstart (le_refl c.replay.current_frame)
    constructor
    · show applySnapshot
        ((replay_record_snapshot c).replay.snapshots
          ((frameClamp (replay_record_snapshot c).replay.recorded_start_frame
              (replay_record_snapshot c).replay.recorded_end_frame
              c.replay.current_frame).tmod c.replay.snapshot_capacity))
        c.game = c.game
      rw [hclamp]
      show applySnapshot
        (if c.replay.current_frame.tmod c.replay.snapshot_capacity =
            c.replay.current_frame.tmod c.replay.snapshot_capacity
         then captureSnapshot c.game else c.replay.snapshots
           (c.replay.current_frame.tmod c.replay.snapshot_capacity))
        c.game = c.game
      rw [if_pos rfl]
      exact applySnapshot_captureSnapshot c.game
    · exact hclamp
  · intro c f hne
    unfold replay_record_snapshot
    dsimp only
    rw [if_neg hne]

/-- Closed witness for C2: loading frame 0 right after recording it on
the fresh capacity-3 context restores the initial game state and
displays frame 0. -/
theorem c2_load_clamp_fidelity_witness :
    (replay_load_frame (replay_record_snapshot (mkInit 3))
        (mkInit 3).replay.current_frame).game = (mkInit 3).game ∧
    (replay_load_frame (replay_record_snapshot (mkInit 3))
        (mkInit 3).replay.current_frame).replay.display_frame =
      (mkInit 3).replay.current_frame :=
  c2_load_clamp_fidelity.2.1 (mkInit 3) (by decide) (by decide)

/-- C5: `js_trim_end f` succeeds exactly when
`recorded_start_frame < f < recorded_end_frame`: it then sets
`recorded_end_frame = f`, clamps `display_frame` (through a snapshot
load at `f`) and `current_frame` down to `f` when they lie past it,
and touches nothing else; outside the guard it is the identity.  In
the capacity-5 scenario, after recording frames 0-4, `trim 2` leaves
`recorded_end_frame = 2` and a subsequent `seek 4` clamps the display
frame to 2. -/
theorem c5_trim_guard :
    (∀ (c : GameContext) (f : Int),
      c.replay.recorded_start_frame < f → f < c.replay.recorded_end_frame →
      (js_trim_end c f).replay.recorded_end_frame = f ∧
      (js_trim_end c f).replay.recorded_start_frame = c.replay.recorded_start_frame ∧
      (js_trim_end c f).replay.mode = c.replay.mode ∧
      (js_trim_end c f).replay.snapshots = c.replay.snapshots ∧
      (js_trim_end c f).replay.display_frame =
        (if f < c.replay.display_frame then f else c.replay.display_frame) ∧
      (js_trim_end c f).replay.current_frame =
        (if f < c.replay.current_frame then f else c.replay.current_frame) ∧
      (f < c.replay.display_frame →
        (js_trim_end c f).game =
          applySnapshot (c.replay.snapshots (f.tmod c.replay.snapshot_capacity)) c.game) ∧
      (¬ f < c.replay.display_frame → (js_trim_end c f).game = c.game)) ∧
    (∀ (c : GameContext) (f : Int),
      f ≤ c.replay.recorded_start_frame ∨ c.replay.recorded_end_frame ≤ f →
      js_trim_end c f = c) ∧
    ((js_trim_end (recordFrames 5 5) 2).replay.recorded_end_frame = 2 ∧
      (js_seek_to_frame (js_trim_end (recordFrames 5 5) 2) 4).replay.display_frame = 2) := by
  refine ⟨?_, ?_, rfl, rfl⟩
  · intro c f h1 h2
    have hclamp : frameClamp c.replay.recorded_start_frame f f = f :=
      frameClamp_of_mem (le_of_lt h1) (le_refl f)
    unfold js_trim_end
    rw [if_neg (by omega), if_neg (by omega)]
    dsimp only
    by_cases hd : f < c.replay.display_frame <;> by_cases hc : f < c.replay.current_frame <;>
      [simp only [if_pos hd, if_pos hc, replay_load_frame_replay, replay_load_frame_game];
       simp only [if_pos hd, if_neg hc, replay_load_frame_replay, replay_load_frame_game];
       simp only [if_neg hd, if_pos hc];
       simp only [if_neg hd, if_neg hc]] <;>
      refine ⟨?_, ?_, ?_, ?_, ?_, ?_, fun hx => ?_, fun hx => ?_⟩ <;>
        first
        | trivial
        | exact hclamp
        | (rw [hclamp])
  · intro c f h
    unfold js_trim_end
    rcases h with h | h
    · rw [if_pos h]
    · by_cases h0 : f ≤ c.replay.recorded_start_frame
      · rw [if_pos h0]
      · rw [if_neg h0, if_pos h]

/-- Closed witness for C5: trimming the recorded frames 0-4 at frame 2
sets the recorded end to 2, and a trim outside the recorded window is
the identity. -/
theorem c5_trim_guard_witness :
    (js_trim_end (recordFrames 5 5) 2).replay.recorded_end_frame = 2 ∧
    js_trim_end (mkInit 3) 0 = mkInit 3 :=
  ⟨(c5_trim_guard.1 (recordFrames 5 5) 2 (by decide) (by decide)).1,
    c5_trim_guard.2.1 (mkInit 3) 0 (Or.inl (by decide))⟩

/-- C7: the PRNG advance is the pure 32-bit xorshift mixer (its output
always fits the 32-bit state word), `irand s lo hi` equals
`lo + raw mod (hi - lo + 1)` with `raw` the advanced word, and from
seed 1337 the first three `irand _ 10 18` draws are the fixed golden
sequence 14, 15, 14 (raw words 339970090, 3449400233, 3849456703). -/
theorem c7_prng_golden :
    (∀ (s : Nat) (a b : Int),
      irand s a b = (xorshift32 s, a + ((xorshift32 s % (b - a + 1).toNat : Nat) : Int))) ∧
    (∀ s : Nat, xorshift32 s < 2 ^ 32) ∧
    irand 1337 10 18 = (339970090, 14) ∧
    irand 339970090 10 18 = (3449400233, 15) ∧
    irand 3449400233 10 18 = (3849456703, 14) := by
  refine ⟨fun s a b => rfl, fun s => Nat.mod_lt _ (by norm_num), ?_, ?_, ?_⟩ <;> decide

/-- C9: with every enemy slot alive, `spawn_enemy` is a no-op on the
whole context (PRNG word included); with every bullet slot alive,
`fire_bullet` likewise leaves the context unchanged. -/
theorem c9_pool_full_noop :
    (∀ c : GameContext,
      (∀ i, i < MAX_ENEMIES → (c.game.enemies i).alive = true) → spawn_enemy c = c) ∧
    (∀ c : GameContext,
      (∀ i, i < MAX_BULLETS → (c.game.bullets i).alive = true) → fire_bullet c = c) := by
  constructor
  · intro c h
    have hnone : (List.range MAX_ENEMIES).find? (fun i => !(c.game.enemies i).alive) = none := by
      rw [List.find?_eq_none]
      intro i hi
      rw [List.mem_range] at hi
      simp [h i hi]
    unfold spawn_enemy
    rw [hnone]
  · intro c h
    have hnone : (List.range MAX_BULLETS).find? (fun i => !(c.game.bullets i).alive) = none := by
      rw [List.find?_eq_none]
      intro i hi
      rw [List.mem_range] at hi
      simp [h i hi]
    unfold fire_bullet
    rw [hnone]

/-- A context whose enemy and bullet pools are completely alive, for
exercising the pool-full no-op paths. -/
def cPoolFull : GameContext where
  game :=
    { gameZero with
      enemies := fun _ => { x := 0, y := 0, vx := 0, r := 1, hp := 1, alive := true }
      bullets := fun _ => { x := 0, y := 0, vx := 0, w := 1, h := 1, alive := true } }
  replay := initReplay 3 (fun _ => snapZero)

/-- Closed witness for C9: on the fully-alive pools both spawn paths
return the context unchanged. -/
theorem c9_pool_full_noop_witness :
    spawn_enemy cPoolFull = cPoolFull ∧ fire_bullet cPoolFull = cPoolFull :=
  ⟨c9_pool_full_noop.1 cPoolFull (fun _ _ => rfl),
    c9_pool_full_noop.2 cPoolFull (fun _ _ => rfl)⟩

/-- C10: `js_start_recording` collapses the recorded range:
afterwards `recorded_start_frame = recorded_end_frame = display_frame
= current_frame`, the input-event count is 0, the mode is Live, every
keyboard level entry is cleared, the ring's physical storage is
untouched, and every `replay_load_frame` request clamps to the single
remaining frame. -/
theorem c10_start_recording_collapse (c : GameContext) :
    (js_start_recording c).replay.recorded_start_frame = c.replay.current_frame ∧
    (js_start_recording c).replay.recorded_end_frame = c.replay.current_frame ∧
    (js_start_recording c).replay.display_frame = c.replay.current_frame ∧
    (js_start_recording c).replay.current_frame = c.replay.current_frame ∧
    (js_start_recording c).replay.event_count = 0 ∧
    (js_start_recording c).replay.mode = TimelineMode.live ∧
    (∀ k, (js_start_recording c).game.keyboard k = 0) ∧
    (js_start_recording c).replay.snapshots = c.replay.snapshots ∧
    (∀ f, (replay_load_frame (js_start_recording c) f).replay.display_frame =
      c.replay.current_frame) := by
  refine ⟨rfl, rfl, rfl, rfl, rfl, rfl, fun k => rfl, rfl, fun f => ?_⟩
  show frameClamp c.replay.current_frame c.replay.current_frame f = c.replay.current_frame
  unfold frameClamp
  dsimp only
  split_ifs <;> omega

/-- A context whose shake and flash are nonzero, used to exhibit that
snapshots do not carry the derived effect fields. -/
def cEffects : GameContext where
  game := { gameZero with shake := 5, flash := 1 }
  replay := initReplay 3 (fun _ => snapZero)

/-- The `cEffects` context after recording frame 0 and then having the
per-tick decay zero the shake and flash fields. -/
def cEffectsDecayed : GameContext :=
  let r := replay_record_snapshot cEffects
  { r with game := { r.game with shake := 0, flash := 0 } }

/-- Counterexample to C6: frame 0 is recorded while `shake = 5` and
`flash = 1`; after the effect fields decay to zero, loading frame 0
restores the snapshotted fields (witness: the rng word) but leaves
shake and flash at 0 instead of the recorded-time 5 and 1 — the
`GameSnapshot` record carries no shake or flash field at all. -/
theorem c6_effects_not_snapshotted_counterexample :
    cEffects.game.shake = 5 ∧ cEffects.game.flash = 1 ∧
    (replay_load_frame cEffectsDecayed 0).replay.display_frame = 0 ∧
    (replay_load_frame cEffectsDecayed 0).game.rng_state = cEffects.game.rng_state ∧
    (replay_load_frame cEffectsDecayed 0).game.shake = 0 ∧
    (replay_load_frame cEffectsDecayed 0).game.flash = 0 ∧
    ¬ (replay_load_frame cEffectsDecayed 0).game.shake = cEffects.game.shake :=
  ⟨rfl, rfl, rfl, rfl, rfl, rfl, by decide⟩

/-- C6 amended: the derived effect fields are not part of the
snapshot: recording leaves the whole game state (shake and flash
included) untouched and stores neither field, and loading any frame
leaves shake and flash at their current values instead of restoring
recorded-time values. -/
theorem c6_effects_not_snapshotted_amended :
    (∀ (c : GameContext) (f : Int),
      (replay_load_frame c f).game.shake = c.game.shake ∧
      (replay_load_frame c f).game.flash = c.game.flash) ∧
    (∀ c : GameContext, (replay_record_snapshot c).game = c.game) :=
  ⟨fun _ _ => ⟨rfl, rfl⟩, fun _ => rfl⟩

/-- C8: toggling the loop recorder out of Recording (with at least one
captured frame) immediately restores the baseline snapshot into the
live state, resets the cursor to 0 and enters Playback; each Playback
tick overwrites the live keyboard with the stored frame at the read
cursor and advances it, and on reaching the effective recorded length
(`min(input_count, LOOP_MAX_INPUTS)`) the baseline is reapplied and
the cursor wraps to 0. -/
theorem c8_loop_recorder_playback :
    (∀ (c : GameContext) (l : LoopRecorder),
      l.state = LoopRecorderState.recording → 0 < l.input_count →
      (loop_toggle c l).1 = loop_restore_snapshot c l ∧
      (loop_toggle c l).2.state = LoopRecorderState.playback ∧
      (loop_toggle c l).2.playback_index = 0) ∧
    (∀ (c : GameContext) (l : LoopRecorder),
      l.input_count ≠ 0 →
      (¬ (if LOOP_MAX_INPUTS < l.input_count then LOOP_MAX_INPUTS else l.input_count) ≤
          l.playback_index + 1 →
        loop_apply_frame c l =
          (setKeyboard c (l.inputs l.playback_index),
            { l with playback_index := l.playback_index + 1 })) ∧
      ((if LOOP_MAX_INPUTS < l.input_count then LOOP_MAX_INPUTS else l.input_count) ≤
          l.playback_index + 1 →
        loop_apply_frame c l =
          (loop_restore_snapshot (setKeyboard c (l.inputs l.playback_index))
              { l with playback_index := 0 },
            { l with playback_index := 0 }))) := by
  constructor
  · intro c l hs hc
    cases l with
    | mk st snap inputs cnt pidx kb =>
      dsimp only at hs hc
      subst hs
      unfold loop_toggle
      dsimp only
      rw [if_pos hc]
      exact ⟨rfl, rfl, rfl⟩
  · intro c l hne
    constructor
    · intro h
      unfold loop_apply_frame
      rw [if_neg hne]
      dsimp only
      rw [if_neg h]
    · intro h
      unfold loop_apply_frame
      rw [if_neg hne]
      dsimp only
      rw [if_pos h]

/-- A loop recorder mid-Playback with 3 captured frames and the read
cursor at the last one, for exercising the wrap path; its state field
is Recording so the same value also exercises the toggle path. -/
def loopW : LoopRecorder where
  state := LoopRecorderState.recording
  start_snapshot := snapZero
  inputs := fun _ => fun _ => 1
  input_count := 3
  playback_index := 2
  keyboard_backup := fun _ => 0

/-- Closed witness for C8: toggling `loopW` out of Recording enters
Playback with cursor 0, and a Playback tick at the last stored frame
wraps the cursor back to 0. -/
theorem c8_loop_recorder_playback_witness :
    (loop_toggle (mkInit 3) loopW).2.state = LoopRecorderState.playback ∧
    (loop_toggle (mkInit 3) loopW).2.playback_index = 0 ∧
    (loop_apply_frame (mkInit 3) loopW).2.playback_index = 0 := by
  refine ⟨(c8_loop_recorder_playback.1 (mkInit 3) loopW rfl (by decide)).2.1,
    (c8_loop_recorder_playback.1 (mkInit 3) loopW rfl (by decide)).2.2, ?_⟩
  rw [(c8_loop_recorder_playback.2 (mkInit 3) loopW (by decide)).2 (by decide)]

theorem playbackStep_fields_of_loop {c : GameContext}
    (hl : c.replay.loop_enabled = true) :
    (playbackStep c).replay.mode = c.replay.mode ∧
    (playbackStep c).replay.loop_enabled = true ∧
    (playbackStep c).replay.recorded_start_frame = c.replay.recorded_start_frame ∧
    (playbackStep c).replay.recorded_end_frame = c.replay.recorded_end_frame := by
  unfold playbackStep
  dsimp only
  split_ifs with h1
  · exact ⟨rfl, hl, rfl, rfl⟩
  · exact ⟨rfl, hl, rfl, rfl⟩

theorem playbackLoop_mode_of_loop (n : Nat) {c : GameContext}
    (hl : c.replay.loop_enabled = true) :
    (playbackLoop n c).replay.mode = c.replay.mode := by
  induction n generalizing c with
  | zero => rfl
  | succ n ih =>
    unfold playbackLoop
    split_ifs with hacc
    · obtain ⟨hm, hl', _, _⟩ := playbackStep_fields_of_loop hl
      rw [ih hl', hm]
    · rfl

theorem playbackLoop_paused_acc (n : Nat) {c : GameContext}
    (h : c.replay.mode = TimelineMode.paused → c.replay.playback_accumulator = 0) :
    (playbackLoop n c).replay.mode = TimelineMode.paused →
      (playbackLoop n c).replay.playback_accumulator = 0 := by
  induction n generalizing c with
  | zero => exact h
  | succ n ih =>
    unfold playbackLoop
    split_ifs with hacc
    · apply ih
      intro hp
      unfold playbackStep at hp ⊢
      dsimp only at hp ⊢
      split_ifs at hp ⊢ with h1 h2
      · have h0 := h hp
        rw [h0] at hacc
        exact absurd hacc (by norm_num)
      · rfl
      · have h0 := h hp
        rw [h0] at hacc
        exact absurd hacc (by norm_num)
    · exact h

/-- C4: with `loop_enabled`, every playback advance step and hence the
whole variable-speed playback tick keeps the mode unchanged (Playback
never exits), and a step from `display_frame` at or past
`recorded_end_frame` lands exactly on `recorded_start_frame` while a
step from below the end advances by exactly one frame (no frame is
skipped); the Playback-to-Paused transition of a playback tick, which
zeroes the accumulator, can only happen with `loop_enabled = false`. -/
theorem c4_loop_wraparound :
    (∀ c : GameContext,
      c.replay.loop_enabled = true →
      ((playbackStep c).replay.mode = c.replay.mode ∧
        (∀ n, (playbackLoop n c).replay.mode = c.replay.mode) ∧
        (update_playback c).replay.mode = c.replay.mode) ∧
      (c.replay.recorded_start_frame ≤ c.replay.recorded_end_frame →
        c.replay.recorded_start_frame ≤ c.replay.display_frame →
        ((c.replay.recorded_end_frame ≤ c.replay.display_frame →
            (playbackStep c).replay.display_frame = c.replay.recorded_start_frame) ∧
          (c.replay.display_frame < c.replay.recorded_end_frame →
            (playbackStep c).replay.display_frame = c.replay.display_frame + 1)))) ∧
    (∀ c : GameContext,
      c.replay.mode = TimelineMode.playback →
      (update_playback c).replay.mode = TimelineMode.paused →
      c.replay.loop_enabled = false ∧
      (update_playback c).replay.playback_accumulator = 0) := by
  constructor
  · intro c hl
    constructor
    · refine ⟨(playbackStep_fields_of_loop hl).1, fun n => playbackLoop_mode_of_loop n hl, ?_⟩
      exact playbackLoop_mode_of_loop _ hl
    · intro h1 h2
      constructor
      · intro hpast
        unfold playbackStep
        dsimp only
        rw [if_pos (by omega : c.replay.recorded_end_frame < c.replay.display_frame + 1),
          if_pos hl]
        show frameClamp c.replay.recorded_start_frame c.replay.recorded_end_frame
            c.replay.recorded_start_frame = c.replay.recorded_start_frame
        exact frameClamp_of_mem (le_refl _) h1
      · intro hlt
        unfold playbackStep
        dsimp only
        rw [if_neg (by omega : ¬ c.replay.recorded_end_frame < c.replay.display_frame + 1)]
        show frameClamp c.replay.recorded_start_frame c.replay.recorded_end_frame
            (c.replay.display_frame + 1) = c.replay.display_frame + 1
        exact frameClamp_of_mem (by omega) (by omega)
  · intro c hm hp
    by_cases hl : c.replay.loop_enabled = true
    · have hmp : (update_playback c).replay.mode = c.replay.mode :=
        playbackLoop_mode_of_loop _ hl
      rw [hmp, hm] at hp
      cases hp
    · constructor
      · cases hb : c.replay.loop_enabled
        · rfl
        · exact absurd hb hl
      · unfold update_playback at hp ⊢
        refine playbackLoop_paused_acc _ ?_ hp
        intro hp0
        have hp1 : c.replay.mode = TimelineMode.paused := hp0
        rw [hm] at hp1
        cases hp1

/-- A concrete Playback-mode context (loop on, window `[0, 2]`, display
at the end) for exercising the wraparound step. -/
def cPlayback : GameContext where
  game := gameZero
  replay :=
    { initReplay 3 (fun _ => snapZero) with
      mode := TimelineMode.playback
      recorded_end_frame := 2
      current_frame := 3
      display_frame := 2
      playback_accumulator := 1 }

/-- Closed witness for C4: on `cPlayback` the advance step past the
recorded end wraps the display frame to the recorded start, and a full
playback tick leaves the mode in Playback. -/
theorem c4_loop_wraparound_witness :
    (playbackStep cPlayback).replay.display_frame = cPlayback.replay.recorded_start_frame ∧
    (update_playback cPlayback).replay.mode = cPlayback.replay.mode :=
  ⟨((c4_loop_wraparound.1 cPlayback rfl).2 (by decide) (by decide)).1 (by decide),
    (c4_loop_wraparound.1 cPlayback rfl).1.2.2⟩

/-- The context reached from a fresh start by one live tick followed
by `js_pause`: the live tick records frame 0 and advances
`current_frame = display_frame = 1`, so pausing leaves
`display_frame = 1` one past `recorded_end_frame = 0`. -/
def cPausedAtLiveEdge : GameContext :=
  js_pause (liveAdvance
    { game := gameZero, replay := initReplay MAX_REPLAY_FRAMES (fun _ => snapZero) })

/-- Counterexample to C3: after init, one live tick and `js_pause` —
all steps of the timeline state machine — the mode is Paused with
`display_frame = 1 > recorded_end_frame = 0`, violating
`display_frame ≤ recorded_end_frame`. -/
theorem c3_mode_invariant_counterexample :
    Reachable cPausedAtLiveEdge ∧
    cPausedAtLiveEdge.replay.mode = TimelineMode.paused ∧
    cPausedAtLiveEdge.replay.recorded_start_frame = 0 ∧
    cPausedAtLiveEdge.replay.recorded_end_frame = 0 ∧
    cPausedAtLiveEdge.replay.display_frame = 1 ∧
    ¬ cPausedAtLiveEdge.replay.display_frame ≤ cPausedAtLiveEdge.replay.recorded_end_frame := by
  refine ⟨?_, rfl, rfl, rfl, rfl, by decide⟩
  exact Reachable.step
    (Reachable.step (Reachable.init gameZero (fun _ => snapZero))
      (Step.tick_live _ gameZero rfl))
    (Step.pause _)

/-- C3 amended: in every reachable state, whenever the mode is Paused
or Playback (indeed in every mode),
`recorded_start_frame ≤ display_frame ≤ recorded_end_frame + 1`: the
display frame may sit exactly one frame past the recorded end (the
live edge left behind by pausing out of Live), but never further. -/
theorem c3_mode_invariant_amended :
    ∀ c : GameContext, Reachable c →
      c.replay.mode = TimelineMode.paused ∨ c.replay.mode = TimelineMode.playback →
      c.replay.recorded_start_frame ≤ c.replay.display_frame ∧
      c.replay.display_frame ≤ c.replay.recorded_end_frame + 1 :=
  fun _ h _ => ⟨(inv_reachable h).start_le_display, (inv_reachable h).display_le⟩

/-- Closed witness for the amended C3 at the paused live-edge state. -/
theorem c3_mode_invariant_amended_witness :
    cPausedAtLiveEdge.replay.recorded_start_frame ≤ cPausedAtLiveEdge.replay.display_frame ∧
    cPausedAtLiveEdge.replay.display_frame ≤ cPausedAtLiveEdge.replay.recorded_end_frame + 1 :=
  c3_mode_invariant_amended cPausedAtLiveEdge
    (Reachable.step
      (Reachable.step (Reachable.init gameZero (fun _ => snapZero))
        (Step.tick_live _ gameZero rfl))
      (Step.pause _))
    (Or.inl rfl)

end GameEngine
